import Mathlib

/-!
Verification of the summary format-version utilities, the channels-tree
wrapping rule, and the summarizer-node garbage-collection data tracking of
the FluidFramework runtime-utils corpus.

The format-version and channels-tree definitions are shallow embeddings of
the TypeScript functions in the summary-format source file
(summaryFormatVersionToNumber, rootHasIsolatedChannels, hasIsolatedChannels,
wrapSummaryInChannelsTree).  The summarizer-node definitions model the
SummarizerNodeWithGC class, whose implementation file is not part of the
corpus: they are written from the specification and pinned by the behavior
of the unit tests in summarizerNodeWithGc.spec.ts.
-/

namespace FluidSummarizer

/-- Version tags occurring in summaries: the tag may be absent (undefined in
TypeScript), the historical string "0.1", or an integer tag.  Covers both
ContainerRuntimeSummaryFormatVersion and DataStoreSummaryFormatVersion. -/
inductive SummaryFormatVersion where
  | undef
  | v01
  | num (n : Int)
deriving DecidableEq, Repr

/-- Embedding of summaryFormatVersionToNumber: absent maps to 0, the string
"0.1" maps to 1, and an integer tag is returned as is. -/
def summaryFormatVersionToNumber : SummaryFormatVersion → Int
  | .undef => 0
  | .v01 => 1
  | .num n => n

/-- Embedding of IContainerRuntimeMetadata: the summary format version plus
the optional disableIsolatedChannels flag (true when present, false when the
optional field is absent). -/
structure IContainerRuntimeMetadata where
  summaryFormatVersion : SummaryFormatVersion
  disableIsolatedChannels : Bool
deriving DecidableEq, Repr

/-- Embedding of the data-store attributes blob as read by
hasIsolatedChannels: its snapshotFormatVersion tag and the optional
disableIsolatedChannels flag. -/
structure IFluidDataStoreAttributes where
  snapshotFormatVersion : SummaryFormatVersion
  disableIsolatedChannels : Bool
deriving DecidableEq, Repr

/-- Embedding of rootHasIsolatedChannels: the metadata argument may be
absent (undefined), in which case the optional-chained version tag is absent
and the flag read is falsy. -/
def rootHasIsolatedChannels (metadata : Option IContainerRuntimeMetadata) : Bool :=
  let version := summaryFormatVersionToNumber
    ((metadata.map fun m => m.summaryFormatVersion).getD .undef)
  decide (1 ≤ version) && !((metadata.map fun m => m.disableIsolatedChannels).getD false)

/-- Embedding of hasIsolatedChannels for data-store attributes. -/
def hasIsolatedChannels (attributes : Option IFluidDataStoreAttributes) : Bool :=
  let version := summaryFormatVersionToNumber
    ((attributes.map fun a => a.snapshotFormatVersion).getD .undef)
  decide (2 ≤ version) && !((attributes.map fun a => a.disableIsolatedChannels).getD false)

/-- Reserved name of the channels isolation container. -/
def channelsTreeName : String := ".channels"

/-- Embedding of the summary tree entity: a blob of serialized bytes, a
handle to a previously acked subtree, or a tree of named children carrying
the optional unreferenced flag (false when the optional field is absent). -/
inductive SummaryObject where
  | blob (content : String)
  | handle (handlePath : String)
  | tree (entries : List (String × SummaryObject)) (unreferenced : Bool)

/-- Embedding of ISummaryStats, the aggregate statistics carried next to a
summary tree. -/
structure ISummaryStats where
  treeNodeCount : Nat
  blobNodeCount : Nat
  handleNodeCount : Nat
  totalBlobSize : Nat
deriving DecidableEq, Repr

/-- Embedding of ISummaryTreeWithStats. -/
structure ISummaryTreeWithStats where
  summary : SummaryObject
  stats : ISummaryStats

/-- Embedding of wrapSummaryInChannelsTree.  The TypeScript function mutates
its argument; the embedding returns the updated record: the summary becomes
a fresh Tree node whose only child, under the reserved ".channels" name, is
the original summary, and treeNodeCount is incremented. -/
def wrapSummaryInChannelsTree (summarizeResult : ISummaryTreeWithStats) : ISummaryTreeWithStats :=
  { summary := .tree [(channelsTreeName, summarizeResult.summary)] false,
    stats := { summarizeResult.stats with
                 treeNodeCount := summarizeResult.stats.treeNodeCount + 1 } }

/-- GC data wire shape: a mapping from node path to the list of outbound
reference paths, embedded as an association list. -/
structure GCData where
  gcNodes : List (String × List String)
deriving DecidableEq, Repr

/-- Empty reference graph, written as gcNodes empty-object on the wire. -/
def emptyGCData : GCData := { gcNodes := [] }

/-- Modelled from the spec: the per-node cache and invalidation state of
SummarizerNodeWithGC, whose implementation file is not part of the corpus.
Carries the sequence number of the last local change, the reference
sequence number of the last committed summary, and the GC-data cache that
getGCData and summarize maintain. -/
structure SummarizerNodeState where
  changeSequenceNumber : Nat
  referenceSequenceNumberAtLastSummary : Nat
  cachedGCData : Option GCData
deriving DecidableEq, Repr

/-- Modelled from the spec: a node is dirty when an operation newer than the
last committed summary has mutated it. -/
def hasDataChanged (node : SummarizerNodeState) : Bool :=
  decide (node.referenceSequenceNumberAtLastSummary < node.changeSequenceNumber)

/-- Modelled from the spec: a node created against a prior summary at the
given sequence number starts clean, with no GC data cached yet. -/
def createNode (latestSummarySequenceNumber : Nat) : SummarizerNodeState :=
  { changeSequenceNumber := latestSummarySequenceNumber,
    referenceSequenceNumberAtLastSummary := latestSummarySequenceNumber,
    cachedGCData := none }

/-- Modelled from the spec: invalidate(sequenceNumber) marks the node dirty
as of that sequence number; an older number than the current one is a no-op,
never a regression. -/
def invalidate (sequenceNumber : Nat) (node : SummarizerNodeState) : SummarizerNodeState :=
  if node.changeSequenceNumber < sequenceNumber then
    { node with changeSequenceNumber := sequenceNumber }
  else
    node

/-- Error taxonomy of the modelled node: getGCData with no registered
internal provider and no data to serve is unrecoverable for that call. -/
inductive SummarizerNodeError where
  | missingGCProvider
deriving DecidableEq, Repr

/-- Result of a getGCData call: the returned reference graph, the state the
node is left in, and whether the internal provider capability was invoked
(the unit tests observe provider invocation by mutating its backing data
between calls). -/
structure GCDataResult where
  gcData : GCData
  state : SummarizerNodeState
  calledInternalProvider : Bool
deriving DecidableEq, Repr

/-- Modelled from the spec: the recompute path of getGCData invokes the
internal reference-graph provider, caches a clone of its result, and
returns it; with no provider registered the call fails with
MissingGCProviderError.  The provider argument holds the graph the
capability would currently produce. -/
def getGCDataRecompute (internalProvider : Option GCData) (node : SummarizerNodeState) :
    Except SummarizerNodeError GCDataResult :=
  match internalProvider with
  | some data =>
      .ok { gcData := data, state := { node with cachedGCData := some data },
            calledInternalProvider := true }
  | none => .error .missingGCProvider

/-- Modelled from the spec: getGCData(fullGC).  When fullGC is false and
nothing changed since the last summary, data cached by a previous
getGCData or summarize call is served first (pinned by the unit test that
summarizes and then reads the summarize-cached data back even though
initial data is present), then the pre-supplied initial GC data, and only
then is the internal provider invoked; any other state recomputes. -/
def getGCData (internalProvider : Option GCData) (initialGCData : Option GCData)
    (fullGC : Bool) (node : SummarizerNodeState) :
    Except SummarizerNodeError GCDataResult :=
  if !fullGC && !hasDataChanged node then
    match node.cachedGCData with
    | some data => .ok { gcData := data, state := node, calledInternalProvider := false }
    | none =>
      match initialGCData with
      | some data =>
          .ok { gcData := data, state := { node with cachedGCData := some data },
                calledInternalProvider := false }
      | none => getGCDataRecompute internalProvider node
  else getGCDataRecompute internalProvider node

/-- Result of the GC-data component of a summarize call: the gcData field of
the returned result, the state the node is left in, and whether the
internal serialization capability ran. -/
structure SummarizeGCResult where
  gcData : GCData
  state : SummarizerNodeState
  calledSummarizeInternal : Bool
deriving DecidableEq, Repr

/-- Modelled from the spec: the GC-data behavior of summarize(fullTree).
On a cache hit (fullTree false and nothing changed) the result carries the
cached GC data, or the empty graph when none was ever populated; otherwise
the internal serialization capability runs and its gcData is cached and
returned.  The serialized tree payload itself is produced by that external
capability and is orthogonal to the GC-data claims, so it is not carried
here.  The argument holds the gcData the capability would currently
produce. -/
def summarize (internalGCData : GCData) (fullTree : Bool) (node : SummarizerNodeState) :
    SummarizeGCResult :=
  if !fullTree && !hasDataChanged node then
    { gcData := node.cachedGCData.getD emptyGCData, state := node,
      calledSummarizeInternal := false }
  else
    { gcData := internalGCData,
      state := { node with cachedGCData := some internalGCData },
      calledSummarizeInternal := true }

/-- Modelled from the spec: outbound edges recorded for a path in the
reference graph (first matching entry of the association list); a path with
no entry has no recorded outbound references. -/
def edgesOf : List (String × List String) → String → List String
  | [], _ => []
  | (key, outbound) :: rest, p => if key = p then outbound else edgesOf rest p

/-- Outbound edges of a path in a GCData graph. -/
def gcEdges (gc : GCData) (p : String) : List String := edgesOf gc.gcNodes p

/-- Modelled from the spec: one step of the mark phase adds every path
reachable in one hop from the currently visited set. -/
def markStep (gc : GCData) (visited : List String) : List String :=
  (visited ++ visited.flatMap (gcEdges gc)).dedup

/-- Iterated mark steps. -/
def markIter (gc : GCData) : Nat → List String → List String
  | 0, visited => visited
  | n + 1, visited => markIter gc n (markStep gc visited)

/-- Paths owning an entry in the reference graph. -/
def gcKeys (gc : GCData) : List String := gc.gcNodes.map Prod.fst

/-- Every path mentioned by the root set or by the graph, as key or as edge
target. -/
def gcUniverse (gc : GCData) (roots : List String) : List String :=
  roots ++ gcKeys gc ++ (gcKeys gc).flatMap (gcEdges gc)

/-- Modelled from the spec: the mark phase of the garbage collector, whose
implementation file is not part of the corpus.  Starting from the root set,
the one-hop expansion is iterated once per distinct path mentioned anywhere
in the snapshot, which saturates reachability; the resulting list holds the
referenced paths, every other path being unreferenced. -/
def runGC (gc : GCData) (roots : List String) : List String :=
  markIter gc (gcUniverse gc roots).toFinset.card roots

/-- Referenced-or-not classification of a path produced by a GC pass; the
unreferenced part of the partition is the complement. -/
def referenced (gc : GCData) (roots : List String) (p : String) : Bool :=
  decide (p ∈ runGC gc roots)

/-- Executable test that two edge lists hold the same multiset of
targets. -/
def multisetEqB (l l2 : List String) : Bool :=
  l.all (fun x => l.count x == l2.count x) && l2.all (fun x => l.count x == l2.count x)

/-- Executable test that two reference graphs list the same keys in the
same order, each key carrying the same outbound edges up to order: the
shape two snapshots of one graph take when only the traversal order of the
recorded references differs. -/
def sameGraphUpToEdgeOrder : List (String × List String) → List (String × List String) → Bool
  | [], [] => true
  | (key, es) :: rest, (key2, es2) :: rest2 =>
      key == key2 && multisetEqB es es2 && sameGraphUpToEdgeOrder rest rest2
  | _, _ => false

/-- Claim C3: summaryFormatVersionToNumber maps the absent tag to 0, the
string "0.1" to 1, and any integer tag to itself. -/
theorem summaryFormatVersionToNumber_spec :
    summaryFormatVersionToNumber .undef = 0
      ∧ summaryFormatVersionToNumber .v01 = 1
      ∧ ∀ n : Int, summaryFormatVersionToNumber (.num n) = n :=
  ⟨rfl, rfl, fun _ => rfl⟩

/-- Claim C4: channel isolation is decided by a normalized-version threshold
comparison plus the persisted opt-out boolean: rootHasIsolatedChannels is
true exactly when the normalized summaryFormatVersion is at least 1 and
disableIsolatedChannels is not set, and hasIsolatedChannels is true exactly
when the normalized snapshotFormatVersion is at least 2 and
disableIsolatedChannels is not set.  The last two conjuncts separate the
threshold semantics from a direct tag-equality test: the integer tag 5 is
not equal to any defined feature tag yet both checks accept it. -/
theorem isolatedChannels_threshold_spec :
    (∀ metadata : Option IContainerRuntimeMetadata,
        rootHasIsolatedChannels metadata = true
          ↔ 1 ≤ summaryFormatVersionToNumber
                ((metadata.map fun m => m.summaryFormatVersion).getD .undef)
            ∧ (metadata.map fun m => m.disableIsolatedChannels).getD false = false)
      ∧ (∀ attributes : Option IFluidDataStoreAttributes,
        hasIsolatedChannels attributes = true
          ↔ 2 ≤ summaryFormatVersionToNumber
                ((attributes.map fun a => a.snapshotFormatVersion).getD .undef)
            ∧ (attributes.map fun a => a.disableIsolatedChannels).getD false = false)
      ∧ rootHasIsolatedChannels (some ⟨.num 5, false⟩) = true
      ∧ hasIsolatedChannels (some ⟨.num 5, false⟩) = true := by
  refine ⟨fun metadata => ?_, fun attributes => ?_, by decide, by decide⟩
  · simp [rootHasIsolatedChannels, Bool.and_eq_true, Bool.not_eq_true']
  · simp [hasIsolatedChannels, Bool.and_eq_true, Bool.not_eq_true']

/-- Claim C5: wrapSummaryInChannelsTree replaces the summary with a Tree
node whose sole child, under the reserved ".channels" name, is the original
summary, increments treeNodeCount by exactly one, and leaves blobNodeCount
and every other statistics field unchanged. -/
theorem wrapSummaryInChannelsTree_spec (r : ISummaryTreeWithStats) :
    (wrapSummaryInChannelsTree r).summary
        = SummaryObject.tree [(channelsTreeName, r.summary)] false
      ∧ (wrapSummaryInChannelsTree r).stats.treeNodeCount = r.stats.treeNodeCount + 1
      ∧ (wrapSummaryInChannelsTree r).stats.blobNodeCount = r.stats.blobNodeCount
      ∧ (wrapSummaryInChannelsTree r).stats.handleNodeCount = r.stats.handleNodeCount
      ∧ (wrapSummaryInChannelsTree r).stats.totalBlobSize = r.stats.totalBlobSize :=
  ⟨rfl, rfl, rfl, rfl, rfl⟩

/-- Claim C10: wrapSummaryInChannelsTree wraps unconditionally and is not
idempotent: for every input, including an already wrapped summary or a
Blob-typed one, applying it twice yields a tree whose ".channels" child is
itself a tree containing only ".channels" holding the original summary, and
raises treeNodeCount by exactly 2 while the other statistics are
unchanged. -/
theorem wrapSummaryInChannelsTree_not_idempotent (r : ISummaryTreeWithStats) :
    (wrapSummaryInChannelsTree (wrapSummaryInChannelsTree r)).summary
        = SummaryObject.tree
            [(channelsTreeName,
               SummaryObject.tree [(channelsTreeName, r.summary)] false)] false
      ∧ (wrapSummaryInChannelsTree (wrapSummaryInChannelsTree r)).stats.treeNodeCount
          = r.stats.treeNodeCount + 2
      ∧ (wrapSummaryInChannelsTree (wrapSummaryInChannelsTree r)).stats.blobNodeCount
          = r.stats.blobNodeCount
      ∧ (wrapSummaryInChannelsTree (wrapSummaryInChannelsTree r)).stats.handleNodeCount
          = r.stats.handleNodeCount
      ∧ (wrapSummaryInChannelsTree (wrapSummaryInChannelsTree r)).stats.totalBlobSize
          = r.stats.totalBlobSize :=
  ⟨rfl, rfl, rfl, rfl, rfl⟩

/-- Claim C8: for every sequence of invalidate(n) calls the effective dirty
sequence number equals the maximum of the starting value and every n passed
so far; invalidating with a number not above the current one is a no-op on
the whole node state, and invalidate never decreases the number. -/
theorem invalidate_monotone_max (node : SummarizerNodeState) (ns : List Nat) :
    (ns.foldl (fun st n => invalidate n st) node).changeSequenceNumber
        = ns.foldl (fun c n => Nat.max c n) node.changeSequenceNumber
      ∧ (∀ n : Nat, ∀ st : SummarizerNodeState,
          n ≤ st.changeSequenceNumber → invalidate n st = st)
      ∧ (∀ n : Nat, ∀ st : SummarizerNodeState,
          st.changeSequenceNumber ≤ (invalidate n st).changeSequenceNumber) := by
  refine ⟨?_, ?_, ?_⟩
  · induction ns generalizing node with
    | nil => rfl
    | cons m rest ih =>
        have hstep : (invalidate m node).changeSequenceNumber
            = Nat.max node.changeSequenceNumber m := by
          unfold invalidate
          split_ifs with h
          · show m = Nat.max node.changeSequenceNumber m
            exact (Nat.max_eq_right (Nat.le_of_lt h)).symm
          · show node.changeSequenceNumber = Nat.max node.changeSequenceNumber m
            exact (Nat.max_eq_left (Nat.le_of_not_lt h)).symm
        simpa [List.foldl_cons, hstep] using ih (invalidate m node)
  · intro n st h
    unfold invalidate
    have : ¬ st.changeSequenceNumber < n := by omega
    simp [this]
  · intro n st
    unfold invalidate
    split_ifs with h
    · show st.changeSequenceNumber ≤ n
      omega
    · exact Nat.le_refl _

/-- Witness for claim C8 at a concrete input: on a node whose change
sequence number is 7, invalidate 5 is a no-op. -/
theorem invalidate_monotone_max_witness :
    (5 : Nat) ≤ (createNode 7).changeSequenceNumber
      ∧ invalidate 5 (createNode 7) = createNode 7 :=
  ⟨by decide, (invalidate_monotone_max (createNode 7) []).2.1 5 (createNode 7) (by decide)⟩

/-- Counterexample to claim C2 as stated: a node that is clean since the
last summary and whose initial GC data is available does not in general
return that initial data — a value cached by an earlier call wins.  The
first call (no initial data) caches the provider result for the path "/";
the second call, although initial data with edge "/b" is now available and
nothing changed, returns the cached graph with edge "/a", which differs
from the initial data. -/
theorem getGCData_initial_counterexample :
    getGCData (some { gcNodes := [("/", ["/a"])] }) none false (createNode 0)
        = Except.ok
            { gcData := { gcNodes := [("/", ["/a"])] },
              state := { changeSequenceNumber := 0,
                         referenceSequenceNumberAtLastSummary := 0,
                         cachedGCData := some { gcNodes := [("/", ["/a"])] } },
              calledInternalProvider := true }
      ∧ hasDataChanged
            { changeSequenceNumber := 0,
              referenceSequenceNumberAtLastSummary := 0,
              cachedGCData := some { gcNodes := [("/", ["/a"])] } } = false
      ∧ getGCData (some { gcNodes := [("/", ["/a"])] })
            (some { gcNodes := [("/", ["/b"])] }) false
            { changeSequenceNumber := 0,
              referenceSequenceNumberAtLastSummary := 0,
              cachedGCData := some { gcNodes := [("/", ["/a"])] } }
          = Except.ok
              { gcData := { gcNodes := [("/", ["/a"])] },
                state := { changeSequenceNumber := 0,
                           referenceSequenceNumberAtLastSummary := 0,
                           cachedGCData := some { gcNodes := [("/", ["/a"])] } },
                calledInternalProvider := false }
      ∧ ({ gcNodes := [("/", ["/a"])] } : GCData) ≠ { gcNodes := [("/", ["/b"])] } :=
  ⟨rfl, rfl, rfl, by decide⟩

/-- Claim C2 as amended: with a registered provider and fullGC false,
getGCData behaves as: an invalidated node invokes the internal provider and
returns exactly its result; a clean node with previously cached GC data
returns that cached value without invoking the provider; a clean node with
no cached value returns the available initial data unchanged without
invoking the provider; and a clean node with neither cached nor initial
data falls back to the internal provider. -/
theorem getGCData_spec (providerData : GCData) (initialGCData : Option GCData)
    (node : SummarizerNodeState) :
    (hasDataChanged node = true →
        getGCData (some providerData) initialGCData false node
          = Except.ok { gcData := providerData,
                        state := { node with cachedGCData := some providerData },
                        calledInternalProvider := true })
      ∧ (hasDataChanged node = false → ∀ d : GCData, node.cachedGCData = some d →
          getGCData (some providerData) initialGCData false node
            = Except.ok { gcData := d, state := node, calledInternalProvider := false })
      ∧ (hasDataChanged node = false → node.cachedGCData = none →
          ∀ d : GCData, initialGCData = some d →
          getGCData (some providerData) initialGCData false node
            = Except.ok { gcData := d, state := { node with cachedGCData := some d },
                          calledInternalProvider := false })
      ∧ (hasDataChanged node = false → node.cachedGCData = none → initialGCData = none →
          getGCData (some providerData) initialGCData false node
            = Except.ok { gcData := providerData,
                          state := { node with cachedGCData := some providerData },
                          calledInternalProvider := true }) := by
  refine ⟨fun hdirty => ?_, fun hclean d hcache => ?_, fun hclean hcache d hinit => ?_,
          fun hclean hcache hinit => ?_⟩
  · simp [getGCData, hdirty, getGCDataRecompute]
  · simp [getGCData, hclean, hcache]
  · simp [getGCData, hclean, hcache, hinit]
  · simp [getGCData, hclean, hcache, hinit, getGCDataRecompute]

/-- Witness for the amended claim C2 at a concrete input: an invalidated
node hands back exactly the provider result. -/
theorem getGCData_spec_witness :
    hasDataChanged (invalidate 10 (createNode 0)) = true
      ∧ getGCData (some { gcNodes := [("/", ["/a", "/b"])] }) none false
            (invalidate 10 (createNode 0))
          = Except.ok
              { gcData := { gcNodes := [("/", ["/a", "/b"])] },
                state := { invalidate 10 (createNode 0) with
                             cachedGCData := some { gcNodes := [("/", ["/a", "/b"])] } },
                calledInternalProvider := true } :=
  ⟨by decide,
   (getGCData_spec { gcNodes := [("/", ["/a", "/b"])] } none
       (invalidate 10 (createNode 0))).1 (by decide)⟩

/-- Claim C6: getGCData on a node with no registered internal provider and
no initial or cached GC data fails with MissingGCProviderError, surfaced to
the caller as the error result rather than a default value. -/
theorem getGCData_missingGCProvider (fullGC : Bool) (node : SummarizerNodeState)
    (hcache : node.cachedGCData = none) :
    getGCData none none fullGC node = Except.error SummarizerNodeError.missingGCProvider := by
  cases hfull : fullGC <;> cases hchanged : hasDataChanged node <;>
    simp [getGCData, hcache, hchanged, getGCDataRecompute]

/-- Witness for claim C6 at a concrete input: a bare fresh node with no
provider fails. -/
theorem getGCData_missingGCProvider_witness :
    (createNode 0).cachedGCData = none
      ∧ getGCData none none false (createNode 0)
          = Except.error SummarizerNodeError.missingGCProvider :=
  ⟨rfl, getGCData_missingGCProvider false (createNode 0) rfl⟩

/-- Claim C7: cache isolation.  On a clean node with no initial data and an
empty cache, the first getGCData call returns the provider result; a second
call made after the provider backing data mutated to any other graph still
returns the value of the first call (values are immutable here, so deep
clone isolation amounts to the second result equaling the first), without
invoking the provider. -/
theorem getGCData_cache_isolation (p1 p2 : GCData) (node : SummarizerNodeState)
    (r : GCDataResult)
    (hclean : hasDataChanged node = false) (hcache : node.cachedGCData = none)
    (hfirst : getGCData (some p1) none false node = Except.ok r) :
    r.gcData = p1
      ∧ getGCData (some p2) none false r.state
          = Except.ok { gcData := r.gcData, state := r.state,
                        calledInternalProvider := false } := by
  have hr : r = { gcData := p1, state := { node with cachedGCData := some p1 },
                  calledInternalProvider := true } := by
    have := hfirst.symm
    simp only [getGCData, hclean, hcache, getGCDataRecompute, Bool.not_false,
      Bool.and_self, if_true, Bool.and_true] at hfirst
    exact (Except.ok.inj hfirst).symm
  subst hr
  have hclean2 : hasDataChanged { node with cachedGCData := some p1 } = false := hclean
  constructor
  · rfl
  · simp [getGCData, hclean2]

/-- Witness for claim C7 at a concrete input: the provider first returns a
graph with one edge, is then mutated to add another node, and the second
call still returns the first graph. -/
theorem getGCData_cache_isolation_witness :
    hasDataChanged (createNode 0) = false
      ∧ (createNode 0).cachedGCData = none
      ∧ ({ gcData := { gcNodes := [("/", ["/a"])] },
           state := { createNode 0 with cachedGCData := some { gcNodes := [("/", ["/a"])] } },
           calledInternalProvider := true } : GCDataResult).gcData
          = { gcNodes := [("/", ["/a"])] }
      ∧ getGCData (some { gcNodes := [("/", ["/a"]), ("/a", ["/b"])] }) none false
            ({ gcData := { gcNodes := [("/", ["/a"])] },
               state := { createNode 0 with
                            cachedGCData := some { gcNodes := [("/", ["/a"])] } },
               calledInternalProvider := true } : GCDataResult).state
          = Except.ok
              { gcData := { gcNodes := [("/", ["/a"])] },
                state := { createNode 0 with
                             cachedGCData := some { gcNodes := [("/", ["/a"])] } },
                calledInternalProvider := false } := by
  refine ⟨by decide, rfl, ?_, ?_⟩
  · exact (getGCData_cache_isolation { gcNodes := [("/", ["/a"])] }
      { gcNodes := [("/", ["/a"]), ("/a", ["/b"])] } (createNode 0) _ (by decide) rfl
      rfl).1
  · exact (getGCData_cache_isolation { gcNodes := [("/", ["/a"])] }
      { gcNodes := [("/", ["/a"]), ("/a", ["/b"])] } (createNode 0) _ (by decide) rfl
      rfl).2

/-- Counterexample to claim C1 as stated: a node on which no getGCData or
GC-data-producing summarize ever ran (its GC cache is empty) but which was
invalidated since the last summary does not return the empty graph from
summarize(fullTree false): the recompute path runs and the result carries
the provider gcData. -/
theorem summarize_empty_gc_counterexample :
    (invalidate 10 (createNode 0)).cachedGCData = none
      ∧ (summarize { gcNodes := [("/", ["/a"])] } false (invalidate 10 (createNode 0))).gcData
          = { gcNodes := [("/", ["/a"])] }
      ∧ ({ gcNodes := [("/", ["/a"])] } : GCData) ≠ emptyGCData := by
  decide

/-- Claim C1 as amended: on a node on which neither getGCData nor a
GC-data-producing summarize has ever run (its GC cache is empty) and which
has not been invalidated since the last summary, summarize(fullTree false)
hits the cache and the gcData of its result is exactly the empty graph —
not the provider output and not any prior value. -/
theorem summarize_empty_gc (internalGCData : GCData) (node : SummarizerNodeState)
    (hclean : hasDataChanged node = false) (hcache : node.cachedGCData = none) :
    summarize internalGCData false node
      = { gcData := emptyGCData, state := node, calledSummarizeInternal := false } := by
  simp [summarize, hclean, hcache]

/-- Witness for the amended claim C1 at a concrete input: a fresh node
returns empty GC data from a non-full-tree summarize even though the
provider would report an edge. -/
theorem summarize_empty_gc_witness :
    hasDataChanged (createNode 0) = false
      ∧ (createNode 0).cachedGCData = none
      ∧ summarize { gcNodes := [("/", ["/a"])] } false (createNode 0)
          = { gcData := emptyGCData, state := createNode 0,
              calledSummarizeInternal := false } :=
  ⟨by decide, rfl, summarize_empty_gc { gcNodes := [("/", ["/a"])] } (createNode 0) rfl rfl⟩

/-- Two edge lists holding the same multiset of targets have the same
members. -/
theorem multisetEqB_mem {l l2 : List String} (h : multisetEqB l l2 = true) (q : String) :
    q ∈ l ↔ q ∈ l2 := by
  unfold multisetEqB at h
  rw [Bool.and_eq_true, List.all_eq_true, List.all_eq_true] at h
  constructor
  · intro hq
    have hc : (l.count q == l2.count q) = true := h.1 q hq
    rw [beq_iff_eq] at hc
    have hpos : 0 < l2.count q := hc ▸ List.count_pos_iff.mpr hq
    exact List.count_pos_iff.mp hpos
  · intro hq
    have hc : (l.count q == l2.count q) = true := h.2 q hq
    rw [beq_iff_eq] at hc
    have hpos : 0 < l.count q := by
      rw [hc]
      exact List.count_pos_iff.mpr hq
    exact List.count_pos_iff.mp hpos

/-- Graphs equal up to edge order record the same outbound references for
every path. -/
theorem edgesOf_mem_congr {g g2 : List (String × List String)}
    (h : sameGraphUpToEdgeOrder g g2 = true) (p q : String) :
    q ∈ edgesOf g p ↔ q ∈ edgesOf g2 p := by
  induction g generalizing g2 with
  | nil =>
    cases g2 with
    | nil => exact Iff.rfl
    | cons e2 rest2 => exact absurd h (by simp [sameGraphUpToEdgeOrder])
  | cons e rest ih =>
    cases g2 with
    | nil => exact absurd h (by simp [sameGraphUpToEdgeOrder])
    | cons e2 rest2 =>
      obtain ⟨key, es⟩ := e
      obtain ⟨key2, es2⟩ := e2
      unfold sameGraphUpToEdgeOrder at h
      rw [Bool.and_eq_true, Bool.and_eq_true, beq_iff_eq] at h
      obtain ⟨⟨hkey, hes⟩, hrest⟩ := h
      subst hkey
      unfold edgesOf
      by_cases hp : key = p
      · rw [if_pos hp, if_pos hp]
        exact multisetEqB_mem hes q
      · rw [if_neg hp, if_neg hp]
        exact ih hrest

/-- Graphs equal up to edge order list exactly the same keys. -/
theorem gcKeys_congr {g g2 : List (String × List String)}
    (h : sameGraphUpToEdgeOrder g g2 = true) :
    g.map Prod.fst = g2.map Prod.fst := by
  induction g generalizing g2 with
  | nil =>
    cases g2 with
    | nil => rfl
    | cons e2 rest2 => exact absurd h (by simp [sameGraphUpToEdgeOrder])
  | cons e rest ih =>
    cases g2 with
    | nil => exact absurd h (by simp [sameGraphUpToEdgeOrder])
    | cons e2 rest2 =>
      obtain ⟨key, es⟩ := e
      obtain ⟨key2, es2⟩ := e2
      unfold sameGraphUpToEdgeOrder at h
      rw [Bool.and_eq_true, Bool.and_eq_true, beq_iff_eq] at h
      obtain ⟨⟨hkey, _⟩, hrest⟩ := h
      subst hkey
      simp only [List.map_cons]
      exact congrArg (List.cons key) (ih hrest)

/-- Graphs equal up to edge order mention the same set of paths, so both
passes run the same number of mark iterations. -/
theorem gcUniverse_toFinset_congr {gc gc2 : GCData} (roots : List String)
    (h : sameGraphUpToEdgeOrder gc.gcNodes gc2.gcNodes = true) :
    (gcUniverse gc roots).toFinset = (gcUniverse gc2 roots).toFinset := by
  have hkeys : gcKeys gc = gcKeys gc2 := gcKeys_congr h
  ext x
  simp only [List.mem_toFinset, gcUniverse, List.mem_append, List.mem_flatMap, hkeys]
  constructor
  · rintro ((hx | hx) | ⟨k, hk, hx⟩)
    · exact Or.inl (Or.inl hx)
    · exact Or.inl (Or.inr hx)
    · exact Or.inr ⟨k, hk, (edgesOf_mem_congr h k x).mp hx⟩
  · rintro ((hx | hx) | ⟨k, hk, hx⟩)
    · exact Or.inl (Or.inl hx)
    · exact Or.inl (Or.inr hx)
    · exact Or.inr ⟨k, hk, (edgesOf_mem_congr h k x).mpr hx⟩

/-- One mark step preserves membership equality of the visited sets when
the two graphs record the same references. -/
theorem markStep_mem_congr {gc gc2 : GCData}
    (hedges : ∀ a b : String, b ∈ gcEdges gc a ↔ b ∈ gcEdges gc2 a)
    {v v2 : List String} (hv : ∀ x, x ∈ v ↔ x ∈ v2) (x : String) :
    x ∈ markStep gc v ↔ x ∈ markStep gc2 v2 := by
  simp only [markStep, List.mem_dedup, List.mem_append, List.mem_flatMap]
  constructor
  · rintro (hx | ⟨a, ha, hx⟩)
    · exact Or.inl ((hv x).mp hx)
    · exact Or.inr ⟨a, (hv a).mp ha, (hedges a x).mp hx⟩
  · rintro (hx | ⟨a, ha, hx⟩)
    · exact Or.inl ((hv x).mpr hx)
    · exact Or.inr ⟨a, (hv a).mpr ha, (hedges a x).mpr hx⟩

/-- Iterated mark steps preserve membership equality of the visited
sets. -/
theorem markIter_mem_congr {gc gc2 : GCData}
    (hedges : ∀ a b : String, b ∈ gcEdges gc a ↔ b ∈ gcEdges gc2 a)
    (n : Nat) {v v2 : List String} (hv : ∀ x, x ∈ v ↔ x ∈ v2) (x : String) :
    x ∈ markIter gc n v ↔ x ∈ markIter gc2 n v2 := by
  induction n generalizing v v2 with
  | zero => exact hv x
  | succ m ih => exact ih (fun y => markStep_mem_congr hedges hv y)

/-- Claim C9: GC determinism.  Two GC passes over snapshots of the same
reference graph that can differ only in the order edge lists are traversed
(same keys, same outbound-reference multisets) classify every path
identically, so the referenced/unreferenced partition of the nodes is
independent of traversal order; a fortiori two passes over one identical
snapshot agree. -/
theorem gc_partition_deterministic (gc gc2 : GCData) (roots : List String)
    (h : sameGraphUpToEdgeOrder gc.gcNodes gc2.gcNodes = true) (p : String) :
    referenced gc roots p = referenced gc2 roots p := by
  have hedges : ∀ a b : String, b ∈ gcEdges gc a ↔ b ∈ gcEdges gc2 a :=
    fun a b => edgesOf_mem_congr h a b
  have hmem : p ∈ runGC gc roots ↔ p ∈ runGC gc2 roots := by
    unfold runGC
    rw [gcUniverse_toFinset_congr roots h]
    exact markIter_mem_congr hedges _ (fun _ => Iff.rfl) p
  unfold referenced
  exact decide_eq_decide.mpr hmem

/-- Witness for claim C9 at a concrete input: the root lists its two edges
in opposite orders in the two snapshots, and the path reached through the
first-listed edge is classified identically by both passes. -/
theorem gc_partition_deterministic_witness :
    sameGraphUpToEdgeOrder
        [("/", ["/a", "/b"]), ("/a", ["/c"])]
        [("/", ["/b", "/a"]), ("/a", ["/c"])] = true
      ∧ referenced { gcNodes := [("/", ["/a", "/b"]), ("/a", ["/c"])] } ["/"] "/c"
          = referenced { gcNodes := [("/", ["/b", "/a"]), ("/a", ["/c"])] } ["/"] "/c" :=
  ⟨by decide,
   gc_partition_deterministic
     { gcNodes := [("/", ["/a", "/b"]), ("/a", ["/c"])] }
     { gcNodes := [("/", ["/b", "/a"]), ("/a", ["/c"])] }
     ["/"] (by decide) "/c"⟩

end FluidSummarizer
